import Mathlib

/-!
Shallow embedding of the Semantic Scholar MCP server adapter
(src/semantic_scholar_mcp/server.py) and proofs about its call handlers.

Python runtime values that can appear as call arguments or parsed JSON
bodies are modelled by `PyVal`.  Python dicts are association lists with
insertion order preserved (JSON object keys are strings).  Operations that
can raise a Python exception are modelled in `Except String`, the `String`
being the message the exception renders to (what `str(e)` gives).
-/

namespace SemanticScholarMCP

/-- A Python value: string, int, bool, None, list, or dict with string keys
(the shapes produced by `json.loads` and by MCP tool arguments). -/
inductive PyVal where
  | str (s : String)
  | int (n : Int)
  | bool (b : Bool)
  | none
  | list (xs : List PyVal)
  | dict (kvs : List (String × PyVal))

/-- Python dict key lookup over an insertion-ordered association list. -/
def alookup {α : Type} : List (String × α) → String → Option α
  | [], _ => Option.none
  | (k, v) :: rest, key => if k = key then Option.some v else alookup rest key

/-- Python `d.get(k, default)` on an arguments dict (total for dicts). -/
def dictGet (args : List (String × PyVal)) (k : String) (d : PyVal) : PyVal :=
  (alookup args k).getD d

/-- Python truthiness of a `PyVal` (`if v:`). -/
def truthy : PyVal → Bool
  | .str s => s ≠ ""
  | .int n => n ≠ 0
  | .bool b => b
  | .none => false
  | .list xs => !xs.isEmpty
  | .dict kvs => !kvs.isEmpty

/-- The apostrophe character (written by code point to keep sources plain). -/
def apos : Char := Char.ofNat 39

/-- The apostrophe as a one-character string. -/
def aposS : String := "\x27"

/-- `str(KeyError(k))` in Python: the repr of the missing key. -/
def keyError (k : String) : String := aposS ++ k ++ aposS

/-- The Python type name of a value (used in exception messages). -/
def pyTypeName : PyVal → String
  | .str _ => "str"
  | .int _ => "int"
  | .bool _ => "bool"
  | .none => "NoneType"
  | .list _ => "list"
  | .dict _ => "dict"

/-- Escape one character for Python string repr with quote character `q`. -/
def pyEscapeChar (q : Char) (c : Char) : String :=
  if c = '\\' then "\\\\"
  else if c = q then "\\" ++ String.singleton q
  else if c = '\n' then "\\n"
  else if c = '\r' then "\\r"
  else if c = '\t' then "\\t"
  else String.singleton c

/-- Python `repr` of a string: single-quoted unless the string contains an
apostrophe and no double quote, in which case double-quoted. -/
def pyReprStr (s : String) : String :=
  let q : Char :=
    if s.contains apos ∧ ¬ s.contains '"' then '"' else apos
  String.singleton q ++ String.join (s.toList.map (pyEscapeChar q)) ++ String.singleton q

mutual

/-- Python `repr` of a parsed-JSON value. -/
def pyRepr : PyVal → String
  | .str s => pyReprStr s
  | .int n => toString n
  | .bool b => if b then "True" else "False"
  | .none => "None"
  | .list xs => "[" ++ String.intercalate ", " (pyReprList xs) ++ "]"
  | .dict kvs => "\x7b" ++ String.intercalate ", " (pyReprDict kvs) ++ "\x7d"

/-- `repr` of each element of a list. -/
def pyReprList : List PyVal → List String
  | [] => []
  | x :: xs => pyRepr x :: pyReprList xs

/-- `repr` of each `key: value` entry of a dict. -/
def pyReprDict : List (String × PyVal) → List String
  | [] => []
  | (k, v) :: kvs => (pyReprStr k ++ ": " ++ pyRepr v) :: pyReprDict kvs

end

/-- Python `str(v)`: the string itself for strings, `repr` otherwise. -/
def pyStr (v : PyVal) : String :=
  match v with
  | .str s => s
  | v => pyRepr v

/-- Python `min(v, k)` with `k : int`: returns `k` when `k < v`, else `v`
(ints and bools compare numerically; any other operand type raises
`TypeError`). -/
def pyMinInt (v : PyVal) (k : Int) : Except String PyVal :=
  match v with
  | .int n => Except.ok (if k < n then PyVal.int k else PyVal.int n)
  | .bool b => Except.ok (if k < (if b then (1 : Int) else 0) then PyVal.int k else PyVal.bool b)
  | v => Except.error (aposS ++ "<" ++ aposS ++ " not supported between instances of "
      ++ aposS ++ "int" ++ aposS ++ " and " ++ aposS ++ pyTypeName v ++ aposS)

/-- Lower-case an ASCII letter, keep every other character. -/
def asciiLowerChar (c : Char) : Char :=
  if 'A' ≤ c ∧ c ≤ 'Z' then Char.ofNat (c.toNat + 32) else c

/-- Python `s.lower()` on the ASCII range (the recognized citation formats
are all ASCII). -/
def pyLowerStr (s : String) : String :=
  String.mk (s.data.map asciiLowerChar)

/-- Python `v.lower()`: defined for strings, `AttributeError` otherwise. -/
def pyLower (v : PyVal) : Except String String :=
  match v with
  | .str s => Except.ok (pyLowerStr s)
  | v => Except.error (aposS ++ pyTypeName v ++ aposS ++ " object has no attribute "
      ++ aposS ++ "lower" ++ aposS)

/-- Is `s2` a substring of `s1` (Python `s2 in s1` on strings)? -/
def strContainsSub (s1 s2 : String) : Bool :=
  (List.range (s1.length + 1)).any (fun i => s2.isPrefixOf (s1.drop i))

/-- Does the list element equal the string `k` under Python `==`?  Only a
string value can compare equal to a string. -/
def pyValEqStr (v : PyVal) (k : String) : Bool :=
  match v with
  | .str s => s = k
  | _ => false

/-- Python `k in v` for a string `k`: key membership for dicts, element
membership for lists, substring test for strings; `TypeError` otherwise. -/
def pyContains (k : String) (v : PyVal) : Except String Bool :=
  match v with
  | .dict kvs => Except.ok (alookup kvs k).isSome
  | .list xs => Except.ok (xs.any (fun x => pyValEqStr x k))
  | .str s => Except.ok (strContainsSub s k)
  | v => Except.error ("argument of type " ++ aposS ++ pyTypeName v ++ aposS
      ++ " is not iterable")

/-- Python `v[k]` for a string key `k`: dict lookup (`KeyError` when the key
is missing), `TypeError` for every other type. -/
def pyGetItem (v : PyVal) (k : String) : Except String PyVal :=
  match v with
  | .dict kvs =>
    match alookup kvs k with
    | Option.some x => Except.ok x
    | Option.none => Except.error (keyError k)
  | .str _ => Except.error "string indices must be integers"
  | .list _ => Except.error "list indices must be integers or slices, not str"
  | v => Except.error (aposS ++ pyTypeName v ++ aposS ++ " object is not subscriptable")

/-- Python `v.get(k, default)`: defined for dicts, `AttributeError` otherwise. -/
def pyDictGet (v : PyVal) (k : String) (d : PyVal) : Except String PyVal :=
  match v with
  | .dict kvs => Except.ok ((alookup kvs k).getD d)
  | v => Except.error (aposS ++ pyTypeName v ++ aposS ++ " object has no attribute "
      ++ aposS ++ "get" ++ aposS)

/-- Python `", ".join(v.keys())`: defined for dicts, `AttributeError` otherwise. -/
def pyKeysJoined (v : PyVal) : Except String String :=
  match v with
  | .dict kvs => Except.ok (String.intercalate ", " (kvs.map Prod.fst))
  | v => Except.error (aposS ++ pyTypeName v ++ aposS ++ " object has no attribute "
      ++ aposS ++ "keys" ++ aposS)

/-- An upstream HTTP response as the handlers consume it: status code, raw
body text, and the result of `response.json()` (which may raise). -/
structure HttpResponse where
  status_code : Nat
  text : String
  json : Except String PyVal

/-- The behaviour of one upstream `requests.get` call: either the call
raises (network failure, timeout, ...) or it returns a response. -/
inductive Upstream where
  | raises (msg : String)
  | responds (r : HttpResponse)

/-- The MCP `TextContent` result (the `type="text"` tag is constant). -/
structure TextContent where
  text : String
deriving DecidableEq

/-- Constructing `TextContent(type="text", text=v)` from an arbitrary value:
pydantic validates that `text` is a string and raises `ValidationError` for
any non-string value (no coercion). -/
def mkTextContent (v : PyVal) : Except String TextContent :=
  match v with
  | .str s => Except.ok (TextContent.mk s)
  | _ => Except.error
      "1 validation error for TextContent\ntext\n  Input should be a valid string"

/-- `_get_headers`: always `Accept: application/json`, plus `x-api-key`
exactly when `self.api_key` is truthy (a non-empty string). -/
def getHeaders (apiKey : Option String) : List (String × String) :=
  match apiKey with
  | Option.none => [("Accept", "application/json")]
  | Option.some k =>
    if k = "" then [("Accept", "application/json")]
    else [("Accept", "application/json"), ("x-api-key", k)]

/-- Look a required argument up; a missing key raises `KeyError`
(`arguments["k"]`). -/
def requiredArg (args : List (String × PyVal)) (k : String) : Except String PyVal :=
  match alookup args k with
  | Option.some v => Except.ok v
  | Option.none => Except.error (keyError k)

def search_paper_default_fields : String :=
  "paperId,title,abstract,authors,year,citationCount"

def get_paper_default_fields : String :=
  "paperId,title,abstract,authors,year,citationCount,referenceCount,fieldsOfStudy,publicationTypes,publicationDate,journal,openAccessPdf"

def get_authors_default_fields : String :=
  "authorId,name,affiliations,citationCount,hIndex"

/-- The six pass-through-if-present query parameters of `search_paper`,
copied in loop order. -/
def passthroughParams (args : List (String × PyVal)) : List (String × PyVal) :=
  ["publicationTypes", "minCitationCount", "publicationDateOrYear",
   "year", "venue", "fieldsOfStudy"].filterMap
    (fun k => (alookup args k).map (fun v => (k, v)))

/-- The query-parameter dict `_handle_search_paper` assembles before the
upstream call: `query` (required, `KeyError` when absent), `fields`,
`offset`, `limit` (defaulted, `limit` clamped via `min(..., 100)`), the six
pass-through keys when present, and `openAccessPdf=""` when the argument is
truthy. -/
def searchPaperParams (args : List (String × PyVal)) :
    Except String (List (String × PyVal)) :=
  match alookup args "query" with
  | Option.none => Except.error (keyError "query")
  | Option.some query =>
    match pyMinInt (dictGet args "limit" (PyVal.int 10)) 100 with
    | Except.error e => Except.error e
    | Except.ok lim =>
      Except.ok
        ([("query", query),
          ("fields", dictGet args "fields" (PyVal.str search_paper_default_fields)),
          ("offset", dictGet args "offset" (PyVal.int 0)),
          ("limit", lim)]
         ++ passthroughParams args
         ++ (if truthy (dictGet args "openAccessPdf" PyVal.none)
             then [("openAccessPdf", PyVal.str "")] else []))

/-- The query-parameter dict `_handle_get_authors` assembles: `fields`,
`offset`, and `limit` clamped via `min(..., 1000)`. -/
def getAuthorsParams (args : List (String × PyVal)) :
    Except String (List (String × PyVal)) :=
  match pyMinInt (dictGet args "limit" (PyVal.int 100)) 1000 with
  | Except.error e => Except.error e
  | Except.ok lim =>
    Except.ok
      [("fields", dictGet args "fields" (PyVal.str get_authors_default_fields)),
       ("offset", dictGet args "offset" (PyVal.int 0)),
       ("limit", lim)]

/-- The generic non-200 message
`f"Error: API returned status {response.status_code}: {response.text}"`. -/
def statusErrorText (r : HttpResponse) : String :=
  "Error: API returned status " ++ toString r.status_code ++ ": " ++ r.text

/-- The body of the `try` block of `_handle_search_paper`; `Except.error`
is a raised Python exception. -/
def searchPaperTry (args : List (String × PyVal)) (up : Upstream) :
    Except String (List TextContent) :=
  match searchPaperParams args with
  | Except.error e => Except.error e
  | Except.ok _params =>
    match up with
    | Upstream.raises msg => Except.error msg
    | Upstream.responds r =>
      if r.status_code ≠ 200 then
        Except.ok [TextContent.mk (statusErrorText r)]
      else
        match r.json with
        | Except.error e => Except.error e
        | Except.ok res => Except.ok [TextContent.mk (pyStr res)]

/-- `_handle_search_paper`: the `try` body with its `except Exception`
fallback. -/
def handleSearchPaper (args : List (String × PyVal)) (up : Upstream) :
    List TextContent :=
  match searchPaperTry args up with
  | Except.ok l => l
  | Except.error e => [TextContent.mk ("Error searching papers: " ++ e)]

/-- The body of the `try` block of `_handle_get_paper`. -/
def getPaperTry (args : List (String × PyVal)) (up : Upstream) :
    Except String (List TextContent) :=
  match requiredArg args "paper_id" with
  | Except.error e => Except.error e
  | Except.ok paper_id =>
    match up with
    | Upstream.raises msg => Except.error msg
    | Upstream.responds r =>
      if r.status_code = 404 then
        Except.ok [TextContent.mk ("Paper not found: " ++ pyStr paper_id)]
      else if r.status_code ≠ 200 then
        Except.ok [TextContent.mk (statusErrorText r)]
      else
        match r.json with
        | Except.error e => Except.error e
        | Except.ok res => Except.ok [TextContent.mk (pyStr res)]

/-- `_handle_get_paper`. -/
def handleGetPaper (args : List (String × PyVal)) (up : Upstream) :
    List TextContent :=
  match getPaperTry args up with
  | Except.ok l => l
  | Except.error e => [TextContent.mk ("Error getting paper details: " ++ e)]

/-- The body of the `try` block of `_handle_get_authors`.  On the 200 path
the source passes the parsed body `res` itself as the `text` field
(`TextContent(type="text", text=res)`, with no `str(...)`), so construction
goes through pydantic validation. -/
def getAuthorsTry (args : List (String × PyVal)) (up : Upstream) :
    Except String (List TextContent) :=
  match requiredArg args "paper_id" with
  | Except.error e => Except.error e
  | Except.ok paper_id =>
    match getAuthorsParams args with
    | Except.error e => Except.error e
    | Except.ok _params =>
      match up with
      | Upstream.raises msg => Except.error msg
      | Upstream.responds r =>
        if r.status_code = 404 then
          Except.ok [TextContent.mk ("Paper not found: " ++ pyStr paper_id)]
        else if r.status_code ≠ 200 then
          Except.ok [TextContent.mk (statusErrorText r)]
        else
          match r.json with
          | Except.error e => Except.error e
          | Except.ok res =>
            match mkTextContent res with
            | Except.error e => Except.error e
            | Except.ok t => Except.ok [t]

/-- `_handle_get_authors`. -/
def handleGetAuthors (args : List (String × PyVal)) (up : Upstream) :
    List TextContent :=
  match getAuthorsTry args up with
  | Except.ok l => l
  | Except.error e => [TextContent.mk ("Error getting authors: " ++ e)]

/-- `add_abstract(citation, abstract, citation_format)`: the unimplemented
formatting stub, returning the constant placeholder. -/
def add_abstract (_citation : PyVal) (_abstract : PyVal) (_format : String) :
    String :=
  "TODO"

/-- The body of the `try` block of `_handle_get_citation`. -/
def getCitationTry (args : List (String × PyVal)) (up : Upstream) :
    Except String (List TextContent) :=
  match requiredArg args "paper_id" with
  | Except.error e => Except.error e
  | Except.ok paper_id =>
    match pyLower (dictGet args "format" (PyVal.str "bibtex")) with
    | Except.error e => Except.error e
    | Except.ok citation_format =>
      match up with
      | Upstream.raises msg => Except.error msg
      | Upstream.responds r =>
        if r.status_code = 404 then
          Except.ok [TextContent.mk ("Paper not found: " ++ pyStr paper_id)]
        else if r.status_code ≠ 200 then
          Except.ok [TextContent.mk (statusErrorText r)]
        else
          match r.json with
          | Except.error e => Except.error e
          | Except.ok data =>
            match pyContains "citationStyles" data with
            | Except.error e => Except.error e
            | Except.ok hasStyles =>
              if ¬ hasStyles then
                Except.ok
                  [TextContent.mk "No citation styles available for this paper."]
              else
                match pyGetItem data "citationStyles" with
                | Except.error e => Except.error e
                | Except.ok styles =>
                  match pyContains citation_format styles with
                  | Except.error e => Except.error e
                  | Except.ok hasFormat =>
                    if ¬ hasFormat then
                      match pyKeysJoined styles with
                      | Except.error e => Except.error e
                      | Except.ok joined =>
                        Except.ok [TextContent.mk
                          ("Citation format " ++ aposS ++ citation_format ++ aposS
                           ++ " not available. Available formats for this paper: "
                           ++ joined)]
                    else
                      match pyGetItem styles citation_format with
                      | Except.error e => Except.error e
                      | Except.ok citation =>
                        match pyDictGet data "abstract" (PyVal.str "") with
                        | Except.error e => Except.error e
                        | Except.ok abst =>
                          Except.ok [TextContent.mk
                            (add_abstract citation abst citation_format)]

/-- `_handle_get_citation`. -/
def handleGetCitation (args : List (String × PyVal)) (up : Upstream) :
    List TextContent :=
  match getCitationTry args up with
  | Except.ok l => l
  | Except.error e => [TextContent.mk ("Error generating citation: " ++ e)]

/-- `handle_call_tool`: dispatch by tool name; an unknown name raises
`ValueError(f"Unknown tool: {name}")` out of the handler. -/
def handleCallTool (name : String) (args : List (String × PyVal))
    (up : Upstream) : Except String (List TextContent) :=
  if name = "search_paper" then Except.ok (handleSearchPaper args up)
  else if name = "get_paper" then Except.ok (handleGetPaper args up)
  else if name = "get_authors" then Except.ok (handleGetAuthors args up)
  else if name = "get_citation" then Except.ok (handleGetCitation args up)
  else Except.error ("Unknown tool: " ++ name)

/-- `_get_paper_fields_documentation`: the fixed markdown document. -/
def paperFieldsDoc : String :=
  "# Paper Fields Reference\n\n## Basic Fields\n- `paperId` - Unique paper identifier\n- `title` - Paper title\n- `abstract` - Paper abstract\n- `year` - Publication year\n- `publicationDate` - Full publication date (YYYY-MM-DD)\n\n## Author Information\n- `authors` - List of authors (returns authorId and name by default)\n- `authors.authorId` - Author\x27s unique identifier\n- `authors.name` - Author\x27s name\n- `authors.affiliations` - Author\x27s institutional affiliations\n- `authors.citationCount` - Author\x27s total citation count\n- `authors.hIndex` - Author\x27s h-index\n\n## Citation and Reference Data\n- `citationCount` - Number of times this paper has been cited\n- `referenceCount` - Number of references in this paper\n- `citations` - List of papers that cite this paper\n- `references` - List of papers referenced by this paper\n\n## Publication Details\n- `journal` - Journal information (name, volume, pages, etc.)\n- `venue` - Publication venue\n- `publicationTypes` - Types of publication (e.g., JournalArticle, Conference)\n- `fieldsOfStudy` - Academic fields (e.g., Computer Science, Medicine)\n- `s2FieldsOfStudy` - Semantic Scholar\x27s field classifications\n\n## Additional Metadata\n- `doi` - Digital Object Identifier\n- `arxivId` - ArXiv identifier\n- `url` - Paper URL\n- `openAccessPdf` - Open access PDF information\n- `embedding` - Paper embedding vectors (for similarity analysis)\n"

/-- `_get_author_fields_documentation`: the fixed markdown document. -/
def authorFieldsDoc : String :=
  "# Author Fields Reference\n\n## Available Fields\n- `authorId` - Unique author identifier\n- `name` - Author\x27s name\n- `affiliations` - Institutional affiliations (array)\n- `citationCount` - Total citation count across all papers\n- `hIndex` - h-index metric\n- `paperCount` - Number of papers published\n- `url` - Author\x27s Semantic Scholar profile URL\n"

/-- `handle_read_resource`: returns one of the two fixed documents; any
other URI raises `ValueError(f"Unknown resource: {uri}")`. -/
def handleReadResource (uri : String) : Except String String :=
  if uri = "semantic-scholar://fields/paper" then Except.ok paperFieldsDoc
  else if uri = "semantic-scholar://fields/author" then Except.ok authorFieldsDoc
  else Except.error ("Unknown resource: " ++ uri)

/-! ## Helper lemmas -/

theorem alookup_append {α : Type} (l1 l2 : List (String × α)) (k : String) :
    alookup (l1 ++ l2) k =
      match alookup l1 k with
      | Option.some v => Option.some v
      | Option.none => alookup l2 k := by
  induction l1 with
  | nil => rfl
  | cons p rest ih =>
    obtain ⟨a, v⟩ := p
    by_cases h : a = k
    · simp [alookup, h]
    · simp [alookup, h, ih]

theorem alookup_filterMap_of_not_mem {α : Type} (keys : List String)
    (args : List (String × α)) (k : String) (h : k ∉ keys) :
    alookup (keys.filterMap (fun k2 => (alookup args k2).map (fun v => (k2, v)))) k
      = Option.none := by
  induction keys with
  | nil => rfl
  | cons a rest ih =>
    simp only [List.filterMap_cons]
    have hak : a ≠ k := by
      intro he
      exact h (by simp [he])
    have hrest : k ∉ rest := by
      intro hm
      exact h (List.mem_cons_of_mem _ hm)
    cases halk : alookup args a with
    | none => simpa using ih hrest
    | some v => simp [alookup, hak, ih hrest]

theorem alookup_passthrough_none (args : List (String × PyVal)) (k : String)
    (h : k ∉ ["publicationTypes", "minCitationCount", "publicationDateOrYear",
              "year", "venue", "fieldsOfStudy"]) :
    alookup (passthroughParams args) k = Option.none :=
  alookup_filterMap_of_not_mem _ args k h

/-! ## Claim theorems -/

/-- C6: every outbound header set contains `Accept: application/json`;
`x-api-key` is absent when the api key is `None` or empty and is exactly the
configured key when it is a non-empty string. -/
theorem getHeaders_api_key_spec :
    ∀ apiKey : Option String,
      alookup (getHeaders apiKey) "Accept" = Option.some "application/json" ∧
      ((apiKey = Option.none ∨ apiKey = Option.some "") →
        alookup (getHeaders apiKey) "x-api-key" = Option.none) ∧
      (∀ k, apiKey = Option.some k → k ≠ "" →
        alookup (getHeaders apiKey) "x-api-key" = Option.some k) := by
  intro apiKey
  cases apiKey with
  | none =>
    refine ⟨by simp [getHeaders, alookup], fun _ => by simp [getHeaders, alookup], ?_⟩
    intro k hk
    exact absurd hk (by simp)
  | some k =>
    by_cases hk : k = ""
    · subst hk
      refine ⟨by simp [getHeaders, alookup], fun _ => by simp [getHeaders, alookup], ?_⟩
      intro k2 hk2 hne
      exact absurd (by simpa using hk2.symm) hne
    · refine ⟨by simp [getHeaders, alookup, hk], ?_, ?_⟩
      · intro hcase
        rcases hcase with h1 | h1
        · exact absurd h1 (by simp)
        · exact absurd (by simpa using h1) hk
      · intro k2 hk2 _
        have : k2 = k := by simpa using hk2.symm
        subst this
        simp [getHeaders, alookup, hk]

/-- Witness for C6 at `None` and at api key `"secret"`. -/
theorem getHeaders_api_key_spec_witness :
    alookup (getHeaders Option.none) "x-api-key" = Option.none ∧
    alookup (getHeaders (Option.some "secret")) "x-api-key" = Option.some "secret" ∧
    alookup (getHeaders (Option.some "secret")) "Accept" = Option.some "application/json" :=
  ⟨(getHeaders_api_key_spec Option.none).2.1 (Or.inl rfl),
   (getHeaders_api_key_spec (Option.some "secret")).2.2 "secret" rfl (by decide),
   (getHeaders_api_key_spec (Option.some "secret")).1⟩

/-- C9: dispatching an unknown tool name raises (is not converted into a
TextResult), reading an unknown resource URI raises, and for the four known
tools and the two known URIs the entry points return a result instead of
raising. -/
theorem dispatch_unknown_raises_spec :
    ∀ (name : String) (args : List (String × PyVal)) (up : Upstream),
      (name ≠ "search_paper" → name ≠ "get_paper" → name ≠ "get_authors" →
        name ≠ "get_citation" →
        handleCallTool name args up = Except.error ("Unknown tool: " ++ name)) ∧
      ((name = "search_paper" ∨ name = "get_paper" ∨ name = "get_authors" ∨
        name = "get_citation") →
        ∃ l, handleCallTool name args up = Except.ok l) ∧
      (∀ uri : String,
        (uri ≠ "semantic-scholar://fields/paper" →
          uri ≠ "semantic-scholar://fields/author" →
          handleReadResource uri = Except.error ("Unknown resource: " ++ uri)) ∧
        ((uri = "semantic-scholar://fields/paper" ∨
          uri = "semantic-scholar://fields/author") →
          ∃ s, handleReadResource uri = Except.ok s)) := by
  intro name args up
  refine ⟨?_, ?_, ?_⟩
  · intro h1 h2 h3 h4
    simp [handleCallTool, h1, h2, h3, h4]
  · intro hmem
    rcases hmem with h | h | h | h <;> subst h <;> exact ⟨_, rfl⟩
  · intro uri
    constructor
    · intro h1 h2
      simp [handleReadResource, h1, h2]
    · intro hmem
      rcases hmem with h | h <;> subst h <;> exact ⟨_, rfl⟩

/-- Witness for C9 at a concrete unknown tool name, a known tool name, an
unknown URI and a known URI. -/
theorem dispatch_unknown_raises_spec_witness :
    handleCallTool "frobnicate" [] (Upstream.raises "x")
      = Except.error "Unknown tool: frobnicate" ∧
    (∃ l, handleCallTool "get_paper" [] (Upstream.raises "x") = Except.ok l) ∧
    handleReadResource "semantic-scholar://fields/venue"
      = Except.error "Unknown resource: semantic-scholar://fields/venue" ∧
    (∃ s, handleReadResource "semantic-scholar://fields/author" = Except.ok s) := by
  have h := dispatch_unknown_raises_spec "frobnicate" [] (Upstream.raises "x")
  have h2 := dispatch_unknown_raises_spec "get_paper" [] (Upstream.raises "x")
  refine ⟨h.1 (by decide) (by decide) (by decide) (by decide), h2.2.1 (Or.inr (Or.inl rfl)), ?_, ?_⟩
  · exact (h.2.2 "semantic-scholar://fields/venue").1 (by decide) (by decide)
  · exact (h.2.2 "semantic-scholar://fields/author").2 (Or.inr rfl)

/-- C10: a call whose arguments omit the required key (`query` for
search_paper, `paper_id` for the other three operations) does not raise:
the `KeyError` is caught and the single TextResult starts with the
operation-specific error label. -/
theorem missing_required_arg_spec :
    ∀ (args : List (String × PyVal)) (up : Upstream),
      (alookup args "query" = Option.none →
        handleSearchPaper args up
          = [TextContent.mk ("Error searching papers: " ++ keyError "query")]) ∧
      (alookup args "paper_id" = Option.none →
        handleGetPaper args up
          = [TextContent.mk ("Error getting paper details: " ++ keyError "paper_id")] ∧
        handleGetAuthors args up
          = [TextContent.mk ("Error getting authors: " ++ keyError "paper_id")] ∧
        handleGetCitation args up
          = [TextContent.mk ("Error generating citation: " ++ keyError "paper_id")]) := by
  intro args up
  constructor
  · intro h
    simp [handleSearchPaper, searchPaperTry, searchPaperParams, h]
  · intro h
    refine ⟨?_, ?_, ?_⟩
    · simp [handleGetPaper, getPaperTry, requiredArg, h]
    · simp [handleGetAuthors, getAuthorsTry, requiredArg, h]
    · simp [handleGetCitation, getCitationTry, requiredArg, h]

/-- Witness for C10 at the empty arguments dict. -/
theorem missing_required_arg_spec_witness :
    handleSearchPaper [] (Upstream.raises "boom")
      = [TextContent.mk ("Error searching papers: " ++ keyError "query")] ∧
    handleGetAuthors [] (Upstream.raises "boom")
      = [TextContent.mk ("Error getting authors: " ++ keyError "paper_id")] :=
  ⟨(missing_required_arg_spec [] (Upstream.raises "boom")).1 rfl,
   ((missing_required_arg_spec [] (Upstream.raises "boom")).2 rfl).2.1⟩

/-- C4: the outbound `limit` equals `min(requested, 100)` for search_paper
(default 10 when absent) and `min(requested, 1000)` for get_authors
(default 100 when absent). -/
theorem limit_clamping_spec :
    ∀ args : List (String × PyVal),
      (∀ n ps, alookup args "limit" = Option.some (PyVal.int n) →
        searchPaperParams args = Except.ok ps →
        alookup ps "limit" = Option.some (PyVal.int (min n 100))) ∧
      (∀ ps, alookup args "limit" = Option.none →
        searchPaperParams args = Except.ok ps →
        alookup ps "limit" = Option.some (PyVal.int 10)) ∧
      (∀ n ps, alookup args "limit" = Option.some (PyVal.int n) →
        getAuthorsParams args = Except.ok ps →
        alookup ps "limit" = Option.some (PyVal.int (min n 1000))) ∧
      (∀ ps, alookup args "limit" = Option.none →
        getAuthorsParams args = Except.ok ps →
        alookup ps "limit" = Option.some (PyVal.int 100)) := by
  intro args
  refine ⟨?_, ?_, ?_, ?_⟩
  · intro n ps h hps
    unfold searchPaperParams at hps
    have hd : dictGet args "limit" (PyVal.int 10) = PyVal.int n := by
      simp [dictGet, h]
    rw [hd] at hps
    cases hq : alookup args "query" with
    | none => rw [hq] at hps; exact absurd hps (by simp)
    | some q =>
      rw [hq] at hps
      simp only [pyMinInt] at hps
      have hlim : (if (100 : Int) < n then PyVal.int 100 else PyVal.int n)
          = PyVal.int (min n 100) := by
        rcases le_or_lt n 100 with hle | hlt
        · rw [if_neg (by omega), min_eq_left hle]
        · rw [if_pos hlt, min_eq_right (by omega)]
      rw [hlim] at hps
      injection hps with hps
      subst hps
      simp [alookup]
  · intro ps h hps
    unfold searchPaperParams at hps
    have hd : dictGet args "limit" (PyVal.int 10) = PyVal.int 10 := by
      simp [dictGet, h]
    rw [hd] at hps
    cases hq : alookup args "query" with
    | none => rw [hq] at hps; exact absurd hps (by simp)
    | some q =>
      rw [hq] at hps
      simp only [pyMinInt] at hps
      norm_num at hps
      subst hps
      simp [alookup]
  · intro n ps h hps
    unfold getAuthorsParams at hps
    have hd : dictGet args "limit" (PyVal.int 100) = PyVal.int n := by
      simp [dictGet, h]
    rw [hd] at hps
    simp only [pyMinInt] at hps
    have hlim : (if (1000 : Int) < n then PyVal.int 1000 else PyVal.int n)
        = PyVal.int (min n 1000) := by
      rcases le_or_lt n 1000 with hle | hlt
      · rw [if_neg (by omega), min_eq_left hle]
      · rw [if_pos hlt, min_eq_right (by omega)]
    rw [hlim] at hps
    injection hps with hps
    subst hps
    simp [alookup]
  · intro ps h hps
    unfold getAuthorsParams at hps
    have hd : dictGet args "limit" (PyVal.int 100) = PyVal.int 100 := by
      simp [dictGet, h]
    rw [hd] at hps
    simp only [pyMinInt] at hps
    norm_num at hps
    subst hps
    simp [alookup]

/-- Witness for C4 at limit 200 (clamped to 100) for search_paper and limit
2000 (clamped to 1000) for get_authors. -/
theorem limit_clamping_spec_witness :
    alookup
        ((searchPaperParams
          [("query", PyVal.str "q"), ("limit", PyVal.int 200)]).toOption.getD [])
        "limit" = Option.some (PyVal.int 100) ∧
    alookup
        ((getAuthorsParams [("limit", PyVal.int 2000)]).toOption.getD [])
        "limit" = Option.some (PyVal.int 1000) := by
  have h := limit_clamping_spec [("query", PyVal.str "q"), ("limit", PyVal.int 200)]
  have h2 := limit_clamping_spec [("limit", PyVal.int 2000)]
  constructor
  · have := h.1 200 ((searchPaperParams
      [("query", PyVal.str "q"), ("limit", PyVal.int 200)]).toOption.getD [])
      rfl rfl
    simpa using this
  · have := h2.2.2.1 2000 ((getAuthorsParams
      [("limit", PyVal.int 2000)]).toOption.getD []) rfl rfl
    simpa using this

/-- C5: a truthy `openAccessPdf` argument is sent upstream as the
empty-string query value. -/
theorem openAccessPdf_empty_string_spec :
    ∀ (args : List (String × PyVal)) (v : PyVal) (ps : List (String × PyVal)),
      alookup args "openAccessPdf" = Option.some v → truthy v = true →
      searchPaperParams args = Except.ok ps →
      alookup ps "openAccessPdf" = Option.some (PyVal.str "") := by
  intro args v ps h htrue hps
  unfold searchPaperParams at hps
  have hd : dictGet args "openAccessPdf" PyVal.none = v := by
    simp [dictGet, h]
  rw [hd] at hps
  cases hq : alookup args "query" with
  | none => rw [hq] at hps; exact absurd hps (by simp)
  | some q =>
    rw [hq] at hps
    cases hm : pyMinInt (dictGet args "limit" (PyVal.int 10)) 100 with
    | error e => rw [hm] at hps; exact absurd hps (by simp)
    | ok lim =>
      rw [hm, htrue] at hps
      simp only [if_true] at hps
      injection hps with hps
      subst hps
      simp only [List.cons_append, List.nil_append, alookup]
      norm_num
      rw [alookup_append]
      rw [alookup_passthrough_none args "openAccessPdf" (by decide)]
      rfl

/-- Witness for C5 at `openAccessPdf=True`. -/
theorem openAccessPdf_empty_string_spec_witness :
    alookup
        ((searchPaperParams
          [("query", PyVal.str "q"), ("openAccessPdf", PyVal.bool true)]).toOption.getD [])
        "openAccessPdf" = Option.some (PyVal.str "") := by
  have := openAccessPdf_empty_string_spec
    [("query", PyVal.str "q"), ("openAccessPdf", PyVal.bool true)]
    (PyVal.bool true)
    ((searchPaperParams
      [("query", PyVal.str "q"), ("openAccessPdf", PyVal.bool true)]).toOption.getD [])
    rfl rfl rfl
  simpa using this

/-- C7: when the upstream answers 404, get_paper and get_authors (once its
outbound parameters were assembled, i.e. the request was actually issued)
return exactly `Paper not found: {paper_id}`. -/
theorem paper_not_found_404_spec :
    ∀ (args : List (String × PyVal)) (pid : String) (r : HttpResponse),
      alookup args "paper_id" = Option.some (PyVal.str pid) →
      r.status_code = 404 →
      handleGetPaper args (Upstream.responds r)
        = [TextContent.mk ("Paper not found: " ++ pid)] ∧
      (∀ ps, getAuthorsParams args = Except.ok ps →
        handleGetAuthors args (Upstream.responds r)
          = [TextContent.mk ("Paper not found: " ++ pid)]) := by
  intro args pid r h h404
  constructor
  · simp [handleGetPaper, getPaperTry, requiredArg, h, h404, pyStr]
  · intro ps hps
    simp [handleGetAuthors, getAuthorsTry, requiredArg, h, hps, h404, pyStr]

/-- Witness for C7 at paper_id `"X"` and a 404 response. -/
theorem paper_not_found_404_spec_witness :
    handleGetPaper [("paper_id", PyVal.str "X")]
        (Upstream.responds (HttpResponse.mk 404 "Not Found" (Except.error "no body")))
      = [TextContent.mk "Paper not found: X"] ∧
    handleGetAuthors [("paper_id", PyVal.str "X")]
        (Upstream.responds (HttpResponse.mk 404 "Not Found" (Except.error "no body")))
      = [TextContent.mk "Paper not found: X"] := by
  have h := paper_not_found_404_spec [("paper_id", PyVal.str "X")] "X"
    (HttpResponse.mk 404 "Not Found" (Except.error "no body")) rfl rfl
  exact ⟨h.1, h.2 _ rfl⟩

/-- C2: on a 200 response whose body carries the (lower-cased) requested
format inside `citationStyles`, get_citation returns the fixed placeholder
`"TODO"` whatever the citation string, the abstract and the format are. -/
theorem citation_placeholder_spec :
    ∀ (args : List (String × PyVal)) (pid : PyVal) (fmt : String)
      (r : HttpResponse) (data styles : List (String × PyVal)) (cit : PyVal),
      alookup args "paper_id" = Option.some pid →
      pyLower (dictGet args "format" (PyVal.str "bibtex")) = Except.ok fmt →
      r.status_code = 200 →
      r.json = Except.ok (PyVal.dict data) →
      alookup data "citationStyles" = Option.some (PyVal.dict styles) →
      alookup styles fmt = Option.some cit →
      handleGetCitation args (Upstream.responds r) = [TextContent.mk "TODO"] := by
  intro args pid fmt r data styles cit hpid hfmt h200 hjson hstyles hcit
  simp [handleGetCitation, getCitationTry, requiredArg, hpid, hfmt, h200, hjson,
    hstyles, hcit, pyContains, pyGetItem, pyDictGet, add_abstract]

/-- Witness for C2: a bibtex entry with an abstract still yields `"TODO"`. -/
theorem citation_placeholder_spec_witness :
    handleGetCitation [("paper_id", PyVal.str "abc")]
        (Upstream.responds (HttpResponse.mk 200 "" (Except.ok (PyVal.dict
          [("citationStyles", PyVal.dict [("bibtex", PyVal.str "@article")]),
           ("abstract", PyVal.str "A")]))))
      = [TextContent.mk "TODO"] :=
  citation_placeholder_spec [("paper_id", PyVal.str "abc")] (PyVal.str "abc")
    "bibtex"
    (HttpResponse.mk 200 "" (Except.ok (PyVal.dict
      [("citationStyles", PyVal.dict [("bibtex", PyVal.str "@article")]),
       ("abstract", PyVal.str "A")])))
    [("citationStyles", PyVal.dict [("bibtex", PyVal.str "@article")]),
     ("abstract", PyVal.str "A")]
    [("bibtex", PyVal.str "@article")]
    (PyVal.str "@article")
    rfl rfl rfl rfl rfl rfl

/-- C8: on a 200 body without `citationStyles` the text is the fixed
no-styles message; when the lower-cased requested format is missing from the
`citationStyles` dict the text names the format and comma-joins the
available keys. -/
theorem citation_format_unavailable_spec :
    ∀ (args : List (String × PyVal)) (pid : PyVal) (fmt : String)
      (r : HttpResponse) (data : List (String × PyVal)),
      alookup args "paper_id" = Option.some pid →
      pyLower (dictGet args "format" (PyVal.str "bibtex")) = Except.ok fmt →
      r.status_code = 200 →
      r.json = Except.ok (PyVal.dict data) →
      ((alookup data "citationStyles" = Option.none →
        handleGetCitation args (Upstream.responds r)
          = [TextContent.mk "No citation styles available for this paper."]) ∧
       (∀ styles, alookup data "citationStyles" = Option.some (PyVal.dict styles) →
        alookup styles fmt = Option.none →
        handleGetCitation args (Upstream.responds r)
          = [TextContent.mk ("Citation format " ++ aposS ++ fmt ++ aposS
              ++ " not available. Available formats for this paper: "
              ++ String.intercalate ", " (styles.map Prod.fst))])) := by
  intro args pid fmt r data hpid hfmt h200 hjson
  constructor
  · intro hnone
    simp [handleGetCitation, getCitationTry, requiredArg, hpid, hfmt, h200, hjson,
      hnone, pyContains]
  · intro styles hstyles hmiss
    simp [handleGetCitation, getCitationTry, requiredArg, hpid, hfmt, h200, hjson,
      hstyles, hmiss, pyContains, pyGetItem, pyKeysJoined]

/-- Witness for C8: requested format `apa` against
`citationStyles = ("bibtex": ...)` yields the exact unavailable-format
message, and a body with no `citationStyles` yields the no-styles message. -/
theorem citation_format_unavailable_spec_witness :
    handleGetCitation
        [("paper_id", PyVal.str "abc"), ("format", PyVal.str "apa")]
        (Upstream.responds (HttpResponse.mk 200 "" (Except.ok (PyVal.dict
          [("citationStyles", PyVal.dict [("bibtex", PyVal.str "@article")])]))))
      = [TextContent.mk ("Citation format \x27apa\x27 not available. Available formats for this paper: bibtex")] ∧
    handleGetCitation [("paper_id", PyVal.str "abc")]
        (Upstream.responds (HttpResponse.mk 200 ""
          (Except.ok (PyVal.dict [("paperId", PyVal.str "abc")]))))
      = [TextContent.mk "No citation styles available for this paper."] := by
  have h1 := citation_format_unavailable_spec
    [("paper_id", PyVal.str "abc"), ("format", PyVal.str "apa")]
    (PyVal.str "abc") "apa"
    (HttpResponse.mk 200 "" (Except.ok (PyVal.dict
      [("citationStyles", PyVal.dict [("bibtex", PyVal.str "@article")])])))
    [("citationStyles", PyVal.dict [("bibtex", PyVal.str "@article")])]
    rfl rfl rfl rfl
  have h2 := citation_format_unavailable_spec
    [("paper_id", PyVal.str "abc")] (PyVal.str "abc") "bibtex"
    (HttpResponse.mk 200 "" (Except.ok (PyVal.dict [("paperId", PyVal.str "abc")])))
    [("paperId", PyVal.str "abc")]
    rfl rfl rfl rfl
  refine ⟨?_, h2.1 rfl⟩
  have := h1.2 [("bibtex", PyVal.str "@article")] rfl rfl
  simpa [aposS] using this

theorem searchPaperTry_ok_length (args : List (String × PyVal)) (up : Upstream)
    (l : List TextContent) (h : searchPaperTry args up = Except.ok l) :
    l.length = 1 := by
  unfold searchPaperTry at h
  repeat' split at h
  all_goals first
    | (injection h with h; subst h; rfl)
    | (injection h)

theorem getPaperTry_ok_length (args : List (String × PyVal)) (up : Upstream)
    (l : List TextContent) (h : getPaperTry args up = Except.ok l) :
    l.length = 1 := by
  unfold getPaperTry at h
  repeat' split at h
  all_goals first
    | (injection h with h; subst h; rfl)
    | (injection h)

theorem getAuthorsTry_ok_length (args : List (String × PyVal)) (up : Upstream)
    (l : List TextContent) (h : getAuthorsTry args up = Except.ok l) :
    l.length = 1 := by
  unfold getAuthorsTry at h
  repeat' split at h
  all_goals first
    | (injection h with h; subst h; rfl)
    | (injection h)

theorem getCitationTry_ok_length (args : List (String × PyVal)) (up : Upstream)
    (l : List TextContent) (h : getCitationTry args up = Except.ok l) :
    l.length = 1 := by
  unfold getCitationTry at h
  repeat' split at h
  all_goals first
    | (injection h with h; subst h; rfl)
    | (injection h)

/-- C3: no call handler ever raises — each returns exactly one TextResult
for every argument dict and every upstream behaviour — and whenever the
`try` body raises, the single TextResult starts with the operation-specific
error label. -/
theorem handlers_never_raise_spec :
    ∀ (args : List (String × PyVal)) (up : Upstream),
      ((handleSearchPaper args up).length = 1 ∧
        ∀ e, searchPaperTry args up = Except.error e →
          handleSearchPaper args up
            = [TextContent.mk ("Error searching papers: " ++ e)]) ∧
      ((handleGetPaper args up).length = 1 ∧
        ∀ e, getPaperTry args up = Except.error e →
          handleGetPaper args up
            = [TextContent.mk ("Error getting paper details: " ++ e)]) ∧
      ((handleGetAuthors args up).length = 1 ∧
        ∀ e, getAuthorsTry args up = Except.error e →
          handleGetAuthors args up
            = [TextContent.mk ("Error getting authors: " ++ e)]) ∧
      ((handleGetCitation args up).length = 1 ∧
        ∀ e, getCitationTry args up = Except.error e →
          handleGetCitation args up
            = [TextContent.mk ("Error generating citation: " ++ e)]) := by
  intro args up
  refine ⟨⟨?_, ?_⟩, ⟨?_, ?_⟩, ⟨?_, ?_⟩, ⟨?_, ?_⟩⟩
  · unfold handleSearchPaper
    cases ht : searchPaperTry args up with
    | ok l => simpa using searchPaperTry_ok_length args up l ht
    | error e => rfl
  · intro e he
    simp [handleSearchPaper, he]
  · unfold handleGetPaper
    cases ht : getPaperTry args up with
    | ok l => simpa using getPaperTry_ok_length args up l ht
    | error e => rfl
  · intro e he
    simp [handleGetPaper, he]
  · unfold handleGetAuthors
    cases ht : getAuthorsTry args up with
    | ok l => simpa using getAuthorsTry_ok_length args up l ht
    | error e => rfl
  · intro e he
    simp [handleGetAuthors, he]
  · unfold handleGetCitation
    cases ht : getCitationTry args up with
    | ok l => simpa using getCitationTry_ok_length args up l ht
    | error e => rfl
  · intro e he
    simp [handleGetCitation, he]

/-- Witness for C3 at a raising upstream: each operation still returns one
labelled TextResult. -/
theorem handlers_never_raise_spec_witness :
    (handleSearchPaper [("query", PyVal.str "q")] (Upstream.raises "timeout")).length = 1 ∧
    handleSearchPaper [("query", PyVal.str "q")] (Upstream.raises "timeout")
      = [TextContent.mk "Error searching papers: timeout"] ∧
    handleGetCitation [("paper_id", PyVal.str "p")] (Upstream.raises "timeout")
      = [TextContent.mk "Error generating citation: timeout"] := by
  have h := handlers_never_raise_spec [("query", PyVal.str "q")] (Upstream.raises "timeout")
  have h2 := handlers_never_raise_spec [("paper_id", PyVal.str "p")] (Upstream.raises "timeout")
  exact ⟨h.1.1, h.1.2 "timeout" rfl, h2.2.2.2.2 "timeout" rfl⟩

/-- C1 (refuted on the code): on HTTP 200 `_handle_get_authors` passes the
parsed body itself — not `str(body)` — as the `text` field, so for a dict
body the pydantic validation raises inside the `try` block and the call
returns the `Error getting authors:` message instead of the serialized
payload. -/
theorem getAuthors_200_dict_body_not_forwarded :
    handleGetAuthors [("paper_id", PyVal.str "abc")]
        (Upstream.responds (HttpResponse.mk 200 ""
          (Except.ok (PyVal.dict [("data", PyVal.list [])]))))
      = [TextContent.mk ("Error getting authors: "
          ++ "1 validation error for TextContent\ntext\n  Input should be a valid string")] ∧
    handleGetAuthors [("paper_id", PyVal.str "abc")]
        (Upstream.responds (HttpResponse.mk 200 ""
          (Except.ok (PyVal.dict [("data", PyVal.list [])]))))
      ≠ [TextContent.mk (pyStr (PyVal.dict [("data", PyVal.list [])]))] := by
  constructor
  · rfl
  · decide

end SemanticScholarMCP
